import Mathlib

/-!
A shallow embedding of the WuYunLiuQi / AHI engine of this repository
(src/server.ts, together with its deployment variants in
src/unnamed/part_002 and src/unnamed/part_003), and theorems checking the
specification's claims about it.

Conventions of the embedding:
* TypeScript string enums with attached static data become Lean inductives
  with attribute functions.
* JavaScript `%` on integers is the truncating remainder, `Int.tmod`.
* JavaScript array indexing `arr[i]`, which yields `undefined` out of
  range, becomes `jsGet : List α → Int → Option α`.
* Floating point arithmetic of the scoring pipeline is modelled over `ℚ`;
  the two-decimal presentation rounding of `toFixed(2)` is modelled
  explicitly by `round2`.
* The backing lunisolar calendar authority (the external `lunar-javascript`
  library) is abstracted as a function parameter; fallible code returns
  `Option` or `Except`.
-/

namespace Ahi

/-- The five elements (五行), a closed enumeration in the source. -/
inductive Element : Type
  | wood | fire | earth | metal | water
deriving DecidableEq, Fintype

/-- The `ElementGeneration` table of src/server.ts lines 26-32:
each element generates exactly one successor. -/
def ElementGeneration : Element → Element
  | .wood => .fire
  | .fire => .earth
  | .earth => .metal
  | .metal => .water
  | .water => .wood

/-- The `ElementOvercomes` table of src/server.ts lines 34-40. -/
def ElementOvercomes : Element → Element
  | .wood => .earth
  | .earth => .water
  | .water => .fire
  | .fire => .metal
  | .metal => .wood

/-- The `ElementOvercomer` table of src/server.ts lines 42-48. -/
def ElementOvercomer : Element → Element
  | .wood => .metal
  | .metal => .fire
  | .fire => .water
  | .water => .earth
  | .earth => .wood

/-- Adequacy tag of a stem's governing element (太过 / 不及). -/
inductive Adequacy : Type
  | excess | deficiency
deriving DecidableEq, Fintype

/-- Adequacy flip used when advancing guest fortunes step by step. -/
def flipAdequacy : Adequacy → Adequacy
  | .excess => .deficiency
  | .deficiency => .excess

/-- JavaScript array indexing: `arr[i]` is `undefined` for a negative or
out-of-range index. -/
def jsGet {α : Type} (l : List α) (i : Int) : Option α :=
  if i < 0 then none else l.get? i.toNat

/-- The truncating remainder (JavaScript `%`) by a positive modulus is
strictly greater than the negated modulus. -/
theorem tmod_pos_lower (a : Int) (n : Nat) (hn : 0 < n) : -((n : Int)) < a.tmod n := by
  cases a with
  | ofNat m =>
      have h := Int.tmod_nonneg (a := Int.ofNat m) (n : Int) (Int.ofNat_nonneg m)
      omega
  | negSucc m =>
      have h : (Int.negSucc m).tmod (Int.ofNat n) = -((((m.succ) % n : Nat)) : Int) := rfl
      have h2 : m.succ % n < n := Nat.mod_lt _ hn
      have h3 : (Int.ofNat n : Int) = (n : Int) := rfl
      rw [h3] at h
      omega

/-- The ten heavenly stems (天干). -/
inductive HeavenlyStem : Type
  | jia | yi | bing | ding | wu | ji | geng | xin | ren | gui
deriving DecidableEq, Fintype

namespace HeavenlyStem

/-- Display glyph of a stem, as in the static records of src/server.ts. -/
def char : HeavenlyStem → String
  | .jia => "甲" | .yi => "乙" | .bing => "丙" | .ding => "丁" | .wu => "戊"
  | .ji => "己" | .geng => "庚" | .xin => "辛" | .ren => "壬" | .gui => "癸"

/-- Element attached to each stem in src/server.ts lines 56-65. -/
def element : HeavenlyStem → Element
  | .jia => .earth | .yi => .metal | .bing => .water | .ding => .wood | .wu => .fire
  | .ji => .earth | .geng => .metal | .xin => .water | .ren => .wood | .gui => .fire

/-- Adequacy attached to each stem in src/server.ts lines 56-65. -/
def adequacy : HeavenlyStem → Adequacy
  | .jia => .excess | .yi => .deficiency | .bing => .excess | .ding => .deficiency
  | .wu => .excess | .ji => .deficiency | .geng => .excess | .xin => .deficiency
  | .ren => .excess | .gui => .deficiency

/-- `HeavenlyStem.list()` of src/server.ts. -/
def list : List HeavenlyStem :=
  [.jia, .yi, .bing, .ding, .wu, .ji, .geng, .xin, .ren, .gui]

/-- The stem lookup index of the src/unnamed/part_002 variant of
`HeavenlyStem.fromYear`: `((year - 4) % 10 + 10) % 10` with the
JavaScript truncating remainder. -/
def stemIndex (year : Int) : Int := ((year - 4).tmod 10 + 10).tmod 10

theorem stemIndex_nonneg (year : Int) : 0 ≤ stemIndex year := by
  have h2 : -((10 : Int)) < (year - 4).tmod 10 := by
    have := tmod_pos_lower (year - 4) 10 (by norm_num)
    exact_mod_cast this
  exact Int.tmod_nonneg _ (by omega)

theorem stemIndex_toNat_lt (year : Int) : (stemIndex year).toNat < 10 := by
  have h : stemIndex year < 10 := Int.tmod_lt_of_pos _ (by norm_num)
  have h0 := stemIndex_nonneg year
  omega

/-- `HeavenlyStem.fromYear` of src/unnamed/part_002 lines 134-137:
`this.list()[((year - 4) % 10 + 10) % 10]`, the explicitly non-negative
modulo, total over all integer years. -/
def fromYear (year : Int) : HeavenlyStem :=
  list.get ⟨(stemIndex year).toNat, stemIndex_toNat_lt year⟩

/-- `HeavenlyStem.fromYear` of src/server.ts lines 71-73:
`this.list()[(year - 4) % 10]` with the plain JavaScript remainder, so a
negative remainder indexes outside the table (JavaScript `undefined`). -/
def fromYearRaw (year : Int) : Option HeavenlyStem :=
  jsGet list ((year - 4).tmod 10)

end HeavenlyStem

/-- The twelve earthly branches (地支). -/
inductive EarthlyBranch : Type
  | zi | chou | yin | mao | chen | si | wu | wei | shen | you | xu | hai
deriving DecidableEq, Fintype

namespace EarthlyBranch

/-- Display glyph of a branch, as in the static records of src/server.ts. -/
def char : EarthlyBranch → String
  | .zi => "子" | .chou => "丑" | .yin => "寅" | .mao => "卯" | .chen => "辰"
  | .si => "巳" | .wu => "午" | .wei => "未" | .shen => "申" | .you => "酉"
  | .xu => "戌" | .hai => "亥"

/-- Element attached to each branch in src/server.ts lines 77-88. -/
def element : EarthlyBranch → Element
  | .zi => .water | .chou => .earth | .yin => .wood | .mao => .wood
  | .chen => .earth | .si => .fire | .wu => .fire | .wei => .earth
  | .shen => .metal | .you => .metal | .xu => .earth | .hai => .water

/-- `EarthlyBranch.list()` of src/server.ts. -/
def list : List EarthlyBranch :=
  [.zi, .chou, .yin, .mao, .chen, .si, .wu, .wei, .shen, .you, .xu, .hai]

/-- The branch lookup index of the src/unnamed/part_002 variant of
`EarthlyBranch.fromYear`: `((year - 4) % 12 + 12) % 12`. -/
def branchIndex (year : Int) : Int := ((year - 4).tmod 12 + 12).tmod 12

theorem branchIndex_nonneg (year : Int) : 0 ≤ branchIndex year := by
  have h2 : -((12 : Int)) < (year - 4).tmod 12 := by
    have := tmod_pos_lower (year - 4) 12 (by norm_num)
    exact_mod_cast this
  exact Int.tmod_nonneg _ (by omega)

theorem branchIndex_toNat_lt (year : Int) : (branchIndex year).toNat < 12 := by
  have h : branchIndex year < 12 := Int.tmod_lt_of_pos _ (by norm_num)
  have h0 := branchIndex_nonneg year
  omega

/-- `EarthlyBranch.fromYear` of src/unnamed/part_002 lines 157-159, with
the explicitly non-negative modulo. -/
def fromYear (year : Int) : EarthlyBranch :=
  list.get ⟨(branchIndex year).toNat, branchIndex_toNat_lt year⟩

/-- `EarthlyBranch.fromYear` of src/server.ts lines 94-96, with the plain
JavaScript remainder. -/
def fromYearRaw (year : Int) : Option EarthlyBranch :=
  jsGet list ((year - 4).tmod 12)

end EarthlyBranch

/-- The six qi types (六气), a fixed 6-cycle in the source. -/
inductive QiType : Type
  | weakYinWood | mildYinFire | weakYangFire
  | dominantYinEarth | mildYangMetal | dominantYangWater
deriving DecidableEq, Fintype

namespace QiType

/-- Display name of each qi type, src/server.ts lines 100-105. -/
def display_name : QiType → String
  | .weakYinWood => "厥阴风木"
  | .mildYinFire => "少阴君火"
  | .weakYangFire => "少阳相火"
  | .dominantYinEarth => "太阴湿土"
  | .mildYangMetal => "阳明燥金"
  | .dominantYangWater => "太阳寒水"

/-- Climatic factor character of each qi type. -/
def factor : QiType → String
  | .weakYinWood => "风" | .mildYinFire => "热" | .weakYangFire => "火"
  | .dominantYinEarth => "湿" | .mildYangMetal => "燥" | .dominantYangWater => "寒"

/-- Element of each qi type, src/server.ts lines 100-105. -/
def element : QiType → Element
  | .weakYinWood => .wood | .mildYinFire => .fire | .weakYangFire => .fire
  | .dominantYinEarth => .earth | .mildYangMetal => .metal | .dominantYangWater => .water

/-- `QiType.list()` of src/server.ts lines 107-109: the fixed 6-cycle order. -/
def list : List QiType :=
  [.weakYinWood, .mildYinFire, .weakYangFire, .dominantYinEarth, .mildYangMetal,
   .dominantYangWater]

/-- The JavaScript `findIndex` by display name used by `QiType.previous`
(src/server.ts line 113); `-1` when absent, as in JavaScript. -/
def findIndexJs (q : QiType) : Int :=
  match list.findIdx? (fun x => x.display_name = q.display_name) with
  | some i => (i : Int)
  | none => -1

/-- `QiType.previous` of src/server.ts lines 111-115 as a partial lookup:
`order[(idx - 1 + 6) % 6]`. -/
def previousOpt (q : QiType) : Option QiType :=
  jsGet list ((findIndexJs q - 1 + 6).tmod 6)

/-- The canonical predecessor in the fixed 6-cycle, written directly from
the cycle order; `previousOpt` is proved to agree with it on every qi type. -/
def prevCanon : QiType → QiType
  | .weakYinWood => .dominantYangWater
  | .mildYinFire => .weakYinWood
  | .weakYangFire => .mildYinFire
  | .dominantYinEarth => .weakYangFire
  | .mildYangMetal => .dominantYinEarth
  | .dominantYangWater => .mildYangMetal

theorem previousOpt_eq_prevCanon : ∀ q : QiType, previousOpt q = some (prevCanon q) := by
  decide

/-- Total version of `QiType.previous`; the default branch is dead code by
`previousOpt_eq_prevCanon`. -/
def previous (q : QiType) : QiType := (previousOpt q).getD q

theorem previous_eq_prevCanon (q : QiType) : previous q = prevCanon q := by
  unfold previous
  rw [previousOpt_eq_prevCanon q]
  rfl

end QiType

/-- The ClimaticEffect table of `WuYunLiuQi.getClimaticEffect`
(src/server.ts lines 200-207): branch-glyph pairs mapped to the
(celestial, terrestrial) qi pair. -/
def climaticMapping : List (List String × (QiType × QiType)) :=
  [ ([EarthlyBranch.zi.char, EarthlyBranch.wu.char],
      (QiType.mildYinFire, QiType.mildYangMetal)),
    ([EarthlyBranch.chou.char, EarthlyBranch.wei.char],
      (QiType.dominantYinEarth, QiType.dominantYangWater)),
    ([EarthlyBranch.yin.char, EarthlyBranch.shen.char],
      (QiType.weakYangFire, QiType.weakYinWood)),
    ([EarthlyBranch.mao.char, EarthlyBranch.you.char],
      (QiType.mildYangMetal, QiType.mildYinFire)),
    ([EarthlyBranch.chen.char, EarthlyBranch.xu.char],
      (QiType.dominantYangWater, QiType.dominantYinEarth)),
    ([EarthlyBranch.si.char, EarthlyBranch.hai.char],
      (QiType.weakYinWood, QiType.weakYangFire)) ]

/-- `WuYunLiuQi.getClimaticEffect` (src/server.ts lines 199-213): the first
mapping entry whose branch list contains the branch glyph; `none` models the
fall-through `undefined`. -/
def getClimaticEffect (b : EarthlyBranch) : Option (QiType × QiType) :=
  (climaticMapping.find? (fun item => item.1.contains b.char)).map (fun item => item.2)

theorem getClimaticEffect_isSome : ∀ b : EarthlyBranch, (getClimaticEffect b).isSome := by
  decide

/-- Total climatic-effect lookup, justified by `getClimaticEffect_isSome`. -/
def climaticEffectT (b : EarthlyBranch) : QiType × QiType :=
  (getClimaticEffect b).get (getClimaticEffect_isSome b)

/-- `WuYunLiuQi.getGuestQiSequence` (src/server.ts lines 215-227); the
non-null assertion on `getClimaticEffect()` is modelled by `Option.map`. -/
def getGuestQiSequence (b : EarthlyBranch) : Option (List QiType) :=
  (getClimaticEffect b).map (fun effect =>
    [QiType.previous (QiType.previous effect.1),
     QiType.previous effect.1,
     effect.1,
     QiType.previous (QiType.previous effect.2),
     QiType.previous effect.2,
     effect.2])

/-- `WuYunLiuQi.getHostFortunes` (src/server.ts lines 195-197). -/
def getHostFortunes : List Element :=
  [.wood, .fire, .earth, .metal, .water]

/-- Iteration core of `WuYunLiuQi.getGuestFortunes` (src/server.ts lines
181-193): advance by Generation, flipping Adequacy, each step. -/
def guestFortunesAux : Element → Adequacy → Nat → List (Element × Adequacy)
  | _, _, 0 => []
  | e, a, n + 1 => (e, a) :: guestFortunesAux (ElementGeneration e) (flipAdequacy a) n

/-- `WuYunLiuQi.getGuestFortunes`: the five guest movements of a year,
seeded at the year stem's element and adequacy. -/
def getGuestFortunes (stem : HeavenlyStem) : List (Element × Adequacy) :=
  guestFortunesAux stem.element stem.adequacy 5

/-- A solar-term instant as reported by the backing lunisolar authority:
its civil `year` (the value of `getYear()` / `getFullYear()`) and an
abstract `time` giving the total order on instants. -/
structure JieqiInstant : Type where
  year : Int
  time : Int
deriving DecidableEq

/-- The month map of the higher-precision `AstronomyEngine.getExactJieqi`
(src/unnamed/part_002 lines 189-191), restricted to the terms the engine
needs. -/
def jieqiMonthMap : List (String × Int) :=
  [("大寒", 1), ("春分", 3), ("小满", 5), ("芒种", 6), ("大暑", 7),
   ("处暑", 8), ("秋分", 9), ("小雪", 11), ("立冬", 11)]

/-- Month-position normalization of src/unnamed/part_002 lines 203-206:
month 0 wraps to December of the prior year, month 13 to January of the
next year. -/
def normalizeProbe (p : Int × Int) : Int × Int :=
  let p1 := if p.2 < 1 then (p.1 - 1, 12) else p
  if p1.2 > 12 then (p1.1 + 1, 1) else p1

/-- One probe of the calendar authority: read the term entry reported when
probing day 15 of the given civil month, and accept it only when its own
reported year equals the requested year (src/unnamed/part_002 lines
208-215). -/
def probeJieqi (table : String → Int → Int → Option JieqiInstant)
    (term : String) (year : Int) (p : Int × Int) : Option JieqiInstant :=
  match table term p.1 p.2 with
  | some j => if j.year = year then some j else none
  | none => none

/-- First pass of the higher-precision `AstronomyEngine.getExactJieqi`
(src/unnamed/part_002 lines 188-216): probe the mapped month (default 6),
its two neighbours, and December of the prior year, taking the first
candidate whose reported year matches. -/
def jieqiFirstPass (table : String → Int → Int → Option JieqiInstant)
    (year : Int) (term : String) : Option JieqiInstant :=
  let m : Int := (((jieqiMonthMap.find? (fun e => e.1 = term)).map (fun e => e.2)).getD 6)
  (([(year, m), (year, m - 1), (year, m + 1), (year - 1, 12)]).map normalizeProbe).findSome?
    (probeJieqi table term year)

/-- Fallback pass of `getExactJieqi` (src/unnamed/part_002 lines 219-226):
scan all twelve months of the target year. -/
def jieqiFallback (table : String → Int → Int → Option JieqiInstant)
    (year : Int) (term : String) : Option JieqiInstant :=
  (List.range 12).findSome? (fun i => probeJieqi table term year (year, (i : Int) + 1))

/-- The higher-precision `AstronomyEngine.getExactJieqi`
(src/unnamed/part_002 lines 186-232), with the external lunisolar
authority abstracted as `table`: first pass, then fallback, then the
thrown error carrying the failing year and term. -/
def getExactJieqi (table : String → Int → Int → Option JieqiInstant)
    (year : Int) (term : String) : Except (Int × String) JieqiInstant :=
  match jieqiFirstPass table year term with
  | some j => Except.ok j
  | none =>
      match jieqiFallback table year term with
      | some j => Except.ok j
      | none => Except.error (year, term)

theorem probeJieqi_year {table term year p j}
    (h : probeJieqi table term year p = some j) : j.year = year := by
  unfold probeJieqi at h
  rcases htab : table term p.1 p.2 with _ | j0
  · rw [htab] at h
    cases h
  · rw [htab] at h
    dsimp only at h
    by_cases hy : j0.year = year
    · rw [if_pos hy] at h
      cases h
      exact hy
    · rw [if_neg hy] at h
      cases h

theorem jieqiFirstPass_year {table year term j}
    (h : jieqiFirstPass table year term = some j) : j.year = year := by
  unfold jieqiFirstPass at h
  obtain ⟨a, _, ha⟩ := List.exists_of_findSome?_eq_some h
  exact probeJieqi_year ha

theorem jieqiFallback_year {table year term j}
    (h : jieqiFallback table year term = some j) : j.year = year := by
  unfold jieqiFallback at h
  obtain ⟨a, _, ha⟩ := List.exists_of_findSome?_eq_some h
  exact probeJieqi_year ha

/-- The movement-year assignment of the `WuYunLiuQi` constructor
(src/server.ts lines 160-171): a date belongs to its civil year when it is
on or after that civil year's Great Cold instant, otherwise to the prior
year.  `dahan` abstracts `AstronomyEngine.getExactJieqi(year, 大寒)`. -/
def wuyunYearOf (dahan : Int → JieqiInstant) (d : JieqiInstant) : Int :=
  if d.time < (dahan d.year).time then d.year - 1 else d.year

/-- The derived year profile of the `WuYunLiuQi` constructor: movement
year, stem and branch. -/
structure YearProfile : Type where
  wuyunYear : Int
  stem : HeavenlyStem
  branch : EarthlyBranch
deriving DecidableEq

/-- `WuYunLiuQi` construction from a date: the movement-year rule followed
by the modular stem/branch lookups (src/server.ts lines 160-171). -/
def mkWuYunLiuQi (dahan : Int → JieqiInstant) (d : JieqiInstant) : YearProfile :=
  let wy := wuyunYearOf dahan d
  { wuyunYear := wy
    stem := HeavenlyStem.fromYear wy
    branch := EarthlyBranch.fromYear wy }

/-- The natal data the `AHIEngine` constructor stores (src/server.ts lines
328-350): the natal movement, the strong/weak organs derived from the
stem's adequacy, and the host movement and host/guest qi at birth. -/
structure NatalProfile : Type where
  natalSuiYun : Element
  natalAdequacy : Adequacy
  strongZang : Element
  weakZang : Element
  birthHostYun : Element
  birthHostQi : QiType
  birthGuestQi : QiType
deriving DecidableEq

/-- The strong/weak-organ derivation of the `AHIEngine` constructor
(src/server.ts lines 335-341) from the natal stem, together with the
birth-date host movement and host/guest qi. -/
def mkNatalProfile (stem : HeavenlyStem) (hostYun : Element)
    (hostQi guestQi : QiType) : NatalProfile :=
  let suiYun := stem.element
  let adequacy := stem.adequacy
  match adequacy with
  | .excess =>
      { natalSuiYun := suiYun, natalAdequacy := adequacy
        strongZang := suiYun, weakZang := ElementOvercomes suiYun
        birthHostYun := hostYun, birthHostQi := hostQi, birthGuestQi := guestQi }
  | .deficiency =>
      { natalSuiYun := suiYun, natalAdequacy := adequacy
        strongZang := ElementOvercomer suiYun, weakZang := suiYun
        birthHostYun := hostYun, birthHostQi := hostQi, birthGuestQi := guestQi }

/-- `AHIEngine._calcBaseScore` of src/server.ts lines 352-372: start at 50;
either-generates-or-same gives +10, host-overcomes-guest −15,
guest-overcomes-host −10; then the fixed ±8 for the named
MildYinFire/WeakYangFire guest/host pairs, compared by display name as in
the source. -/
def calcBaseScore (hostQi guestQi : QiType) : Int :=
  let hEl := hostQi.element
  let gEl := guestQi.element
  let s1 : Int :=
    if ElementGeneration gEl = hEl ∨ ElementGeneration hEl = gEl ∨ gEl = hEl then
      50 + 10
    else if ElementOvercomes hEl = gEl then 50 - 15
    else if ElementOvercomes gEl = hEl then 50 - 10
    else 50
  if guestQi.display_name = QiType.mildYinFire.display_name ∧
      hostQi.display_name = QiType.weakYangFire.display_name then s1 + 8
  else if guestQi.display_name = QiType.weakYangFire.display_name ∧
      hostQi.display_name = QiType.mildYinFire.display_name then s1 - 8
  else s1

/-- Natal base score of a profile, `engine.baseScore`. -/
def baseScore (natal : NatalProfile) : Int :=
  calcBaseScore natal.birthHostQi natal.birthGuestQi

/-- The movement (五运) collision points `suiYunPts` of
`AHIEngine.calculateYearAhi` (src/server.ts lines 384-399): the same/
generation/overcoming chain on the flowing stem element, then the adequacy
adjustments against the weak and strong organs. -/
def suiYunPts (natal : NatalProfile) (stem : HeavenlyStem) : Int :=
  let cySuiYun := stem.element
  let cyAdequacy := stem.adequacy
  let base : Int :=
    if cySuiYun = natal.natalSuiYun then 25
    else if ElementGeneration cySuiYun = natal.natalSuiYun ∨
        ElementGeneration natal.natalSuiYun = cySuiYun then 18
    else if ElementOvercomes cySuiYun = natal.natalSuiYun ∨
        ElementOvercomes natal.natalSuiYun = cySuiYun then -22
    else 0
  let b2 : Int :=
    if cyAdequacy = Adequacy.excess ∧ ElementOvercomes cySuiYun = natal.weakZang then
      base - 15
    else base
  if cyAdequacy = Adequacy.deficiency ∧ ElementGeneration cySuiYun = natal.strongZang then
    b2 + 10
  else b2

/-- The per-step guest-movement score of the kline loop (src/server.ts
lines 403-413). -/
def stepScore (natal : NatalProfile) (gy : Element) : Int :=
  if gy = natal.birthHostYun then 20
  else if ElementGeneration gy = natal.birthHostYun ∨
      ElementGeneration gy = natal.weakZang then 15
  else if ElementOvercomes gy = natal.birthHostYun ∨
      ElementOvercomes gy = natal.weakZang then -25
  else 0

/-- Sum of the five per-step guest-movement scores (src/server.ts lines
401-413). -/
def stepPtsSum (natal : NatalProfile) (stem : HeavenlyStem) : Int :=
  (((getGuestFortunes stem).map (fun f => f.1)).map (stepScore natal)).sum

/-- `avgStepPts`: the mean of the five per-step scores (src/server.ts line
414). -/
def avgStepPts (natal : NatalProfile) (stem : HeavenlyStem) : ℚ :=
  (stepPtsSum natal stem : ℚ) / 5

/-- The two-character three-yin-three-yang name marker
(`display_name.substring(0, 2)`, src/server.ts lines 417-419). -/
def takeTwo (q : QiType) : String := q.display_name.take 2

/-- `sqPts1` of `AHIEngine.calculateYearAhi` (src/server.ts lines 421-433):
cumulative (non-exclusive) adjustments from the celestial and terrestrial
qi against the natal host qi and weak organ. -/
def sqPts1 (natal : NatalProfile) (siTian zaiQuan : QiType) : Int :=
  let s1 : Int :=
    if takeTwo siTian = takeTwo natal.birthHostQi ∨
        takeTwo zaiQuan = takeTwo natal.birthHostQi then 22
    else 0
  let s2 : Int :=
    if ElementGeneration siTian.element = natal.birthHostQi.element then s1 + 16 else s1
  let s3 : Int :=
    if ElementOvercomes siTian.element = natal.birthHostQi.element ∨
        ElementOvercomes siTian.element = natal.weakZang then s2 - 28
    else s2
  if ElementOvercomes zaiQuan.element = natal.birthHostQi.element ∨
      ElementOvercomes zaiQuan.element = natal.weakZang then s3 - 28
  else s3

/-- `sqPts2` of `AHIEngine.calculateYearAhi` (src/server.ts lines 435-451):
the else-if chain on the natal movement against the celestial qi element
and the flowing branch element. -/
def sqPts2 (natalYun siTianEl cyBranchEl : Element) : Int :=
  if ElementGeneration siTianEl = natalYun then 22
  else if natalYun = cyBranchEl then 20
  else if ElementGeneration natalYun = siTianEl then -15
  else if ElementOvercomes natalYun = siTianEl then -20
  else if ElementOvercomes siTianEl = natalYun then -28
  else if natalYun = siTianEl then -12
  else 0

/-- The strict first-match priority chain described by the specification
for the 75%-weighted qi sub-score: the first matching rule wins and no
rule is double counted. -/
def sqPts2Chain (natalYun siTianEl cyBranchEl : Element) : Int :=
  let rules : List (Bool × Int) :=
    [ (decide (ElementGeneration siTianEl = natalYun), 22),
      (decide (natalYun = cyBranchEl), 20),
      (decide (ElementGeneration natalYun = siTianEl), -15),
      (decide (ElementOvercomes natalYun = siTianEl), -20),
      (decide (ElementOvercomes siTianEl = natalYun), -28),
      (decide (natalYun = siTianEl), -12) ]
  match rules.find? (fun r => r.1) with
  | some r => r.2
  | none => 0

theorem sqPts2_eq_chain :
    ∀ natalYun siTianEl cyBranchEl : Element,
      sqPts2 natalYun siTianEl cyBranchEl = sqPts2Chain natalYun siTianEl cyBranchEl := by
  decide

/-- The collision-score body of `AHIEngine.calculateYearAhi` after the
flowing-year profile has been resolved (src/server.ts lines 378-457). -/
def calculateYearAhiCore (natal : NatalProfile) (stem : HeavenlyStem)
    (branch : EarthlyBranch) : ℚ :=
  let effect := climaticEffectT branch
  let siTian := effect.1
  let zaiQuan := effect.2
  let weightedYun : ℚ := (suiYunPts natal stem : ℚ) * 0.90 + avgStepPts natal stem * 0.10
  let weightedQi : ℚ :=
    (sqPts1 natal siTian zaiQuan : ℚ) * 0.25 +
      (sqPts2 natal.natalSuiYun siTian.element branch.element : ℚ) * 0.75
  weightedYun * 0.30 + weightedQi * 0.70

/-- `AHIEngine.calculateYearAhi` (src/server.ts lines 374-458): resolve the
flowing year from the Great Cold instant of the target year, then score the
collision.  `dahan` abstracts the solar-term locator for Great Cold. -/
def calculateYearAhi (dahan : Int → JieqiInstant) (natal : NatalProfile)
    (targetYear : Int) : ℚ :=
  let flowYear := mkWuYunLiuQi dahan (dahan targetYear)
  calculateYearAhiCore natal flowYear.stem flowYear.branch

/-- Clamping of the close score: `Math.max(0, Math.min(100, x))`
(src/server.ts line 511). -/
def clamp (x : ℚ) : ℚ := max 0 (min 100 x)

theorem clamp_nonneg (x : ℚ) : 0 ≤ clamp x := le_max_left 0 _

theorem clamp_le_100 (x : ℚ) : clamp x ≤ 100 :=
  max_le (by norm_num) (min_le_left 100 x)

/-- The two-decimal presentation rounding
`parseFloat(value.toFixed(2))` (src/server.ts lines 515-516), for the
non-negative values the loop produces: round half up at the second
decimal. -/
def round2 (x : ℚ) : ℚ := ((⌊x * 100 + 1 / 2⌋ : Int) : ℚ) / 100

theorem round2_nonneg {x : ℚ} (hx : 0 ≤ x) : 0 ≤ round2 x := by
  unfold round2
  have h : (0 : Int) ≤ ⌊x * 100 + 1 / 2⌋ := by
    apply Int.floor_nonneg.mpr
    nlinarith
  positivity

theorem round2_le_100 {x : ℚ} (hx : x ≤ 100) : round2 x ≤ 100 := by
  unfold round2
  have h : ⌊x * 100 + 1 / 2⌋ ≤ 10000 := by
    have h2 : x * 100 + 1 / 2 ≤ (10000 : ℚ) + 1 / 2 := by nlinarith
    have h4 : ⌊x * 100 + 1 / 2⌋ ≤ ⌊(10000 : ℚ) + 1 / 2⌋ := Int.floor_le_floor h2
    have h5 : ⌊(10000 : ℚ) + 1 / 2⌋ = 10000 := by
      rw [Int.floor_eq_iff]
      norm_num
    omega
  have h5 : ((⌊x * 100 + 1 / 2⌋ : Int) : ℚ) ≤ 10000 := by exact_mod_cast h
  linarith

theorem round2_intCast (n : Int) : round2 ((n : ℚ)) = (n : ℚ) := by
  unfold round2
  have h : ⌊(n : ℚ) * 100 + 1 / 2⌋ = 100 * n := by
    rw [Int.floor_eq_iff]
    constructor
    · push_cast
      nlinarith [sq_nonneg ((n : ℚ))]
    · push_cast
      nlinarith [sq_nonneg ((n : ℚ))]
  rw [h]
  push_cast
  ring

/-- The age-band lifecycle drift of the kline loop (src/server.ts lines
503-507). -/
def lifecycleDrift (age : Nat) : ℚ :=
  if 1 ≤ age ∧ age ≤ 20 then 0.8
  else if 21 ≤ age ∧ age ≤ 40 then 0.0
  else if 41 ≤ age ∧ age ≤ 50 then -0.8
  else -1.5

/-- The carried `currentHealth` of the kline loop (src/server.ts lines
496-520): the natal base score before the first iteration, then the
clamped close of each age.  The target calendar year of age `a` is
`birthYear + a - 1`. -/
def klineClose (dahan : Int → JieqiInstant) (natal : NatalProfile)
    (birthYear : Int) : Nat → ℚ
  | 0 => (baseScore natal : ℚ)
  | a + 1 =>
      clamp (klineClose dahan natal birthYear a * 0.6 + (baseScore natal : ℚ) * 0.4 +
        calculateYearAhi dahan natal (birthYear + ((a : Int) + 1) - 1) +
        lifecycleDrift (a + 1))

/-- One emitted point of the kline series: age, two-decimal-rounded open
and close (src/server.ts lines 513-517).  The source field `open` is a
Lean keyword, rendered `open_`. -/
structure KlinePoint : Type where
  age : Nat
  open_ : ℚ
  close : ℚ
deriving DecidableEq

/-- The emitted 60-point kline series of the `/api/calculate` loop
(src/server.ts lines 496-520). -/
def klineData (dahan : Int → JieqiInstant) (natal : NatalProfile)
    (birthYear : Int) : List KlinePoint :=
  (List.range 60).map (fun i =>
    { age := i + 1
      open_ := round2 (klineClose dahan natal birthYear i)
      close := round2 (klineClose dahan natal birthYear (i + 1)) })

theorem klineData_getD (dahan : Int → JieqiInstant) (natal : NatalProfile)
    (birthYear : Int) {i : Nat} (hi : i < 60) :
    (klineData dahan natal birthYear).getD i ⟨0, 0, 0⟩ =
      { age := i + 1
        open_ := round2 (klineClose dahan natal birthYear i)
        close := round2 (klineClose dahan natal birthYear (i + 1)) } := by
  unfold klineData
  rw [List.getD_eq_getElem?_getD, List.getElem?_map, List.getElem?_range hi]
  rfl

/-- Shared helper: when the Great Cold locator reports the instant of the
target year inside that civil year, the flow-year profile resolves to the
target year itself. -/
theorem mkWuYunLiuQi_dahan (dahan : Int → JieqiInstant) (Y : Int)
    (h : (dahan Y).year = Y) :
    mkWuYunLiuQi dahan (dahan Y) =
      { wuyunYear := Y
        stem := HeavenlyStem.fromYear Y
        branch := EarthlyBranch.fromYear Y } := by
  unfold mkWuYunLiuQi wuyunYearOf
  rw [h]
  simp

/-- C9: the three element-relation tables are mutually consistent total
functions over the five elements: Overcomes is the two-step offset of
Generation along the cycle, and OvercomeBy is the exact inverse of
Overcomes. -/
theorem element_relations_consistent :
    ∀ x : Element,
      ElementOvercomes x = ElementGeneration (ElementGeneration x) ∧
      ElementOvercomer (ElementOvercomes x) = x := by
  decide

/-- C5: for every host/guest qi pairing at birth, the natal base score of
src/server.ts lies within [20, 70] under the +10 / −15 / −10 / ±8 rule
set. -/
theorem baseScore_in_bounds :
    ∀ hostQi guestQi : QiType,
      20 ≤ calcBaseScore hostQi guestQi ∧ calcBaseScore hostQi guestQi ≤ 70 := by
  decide

/-- C7: for every branch, the climatic-effect lookup succeeds and the
guest-qi sequence is [pred(pred(celestial)), pred(celestial), celestial,
pred(pred(terrestrial)), pred(terrestrial), terrestrial], with pred the
predecessor in the fixed QiType 6-cycle. -/
theorem guestQiSequence_pattern :
    ∀ b : EarthlyBranch, ∃ st zq : QiType,
      getClimaticEffect b = some (st, zq) ∧
      getGuestQiSequence b =
        some [QiType.prevCanon (QiType.prevCanon st), QiType.prevCanon st, st,
              QiType.prevCanon (QiType.prevCanon zq), QiType.prevCanon zq, zq] := by
  decide

/-- C4: the part_002 lookups with the explicitly non-negative modulo hit a
defined table entry for every integer year, while the src/server.ts
plain-remainder variant misses the table for years before the epoch: at
year 0 it reads index −4, JavaScript `undefined`, where the normalized
variant returns the stem 庚 and the branch 申. -/
theorem fromYear_nonneg_modulo_totality :
    (∀ year : Int,
        jsGet HeavenlyStem.list (HeavenlyStem.stemIndex year) =
          some (HeavenlyStem.fromYear year) ∧
        jsGet EarthlyBranch.list (EarthlyBranch.branchIndex year) =
          some (EarthlyBranch.fromYear year)) ∧
      HeavenlyStem.fromYearRaw 0 = none ∧
      EarthlyBranch.fromYearRaw 0 = none ∧
      HeavenlyStem.fromYear 0 = HeavenlyStem.geng ∧
      EarthlyBranch.fromYear 0 = EarthlyBranch.shen := by
  constructor
  · intro year
    constructor
    · unfold jsGet HeavenlyStem.fromYear
      rw [if_neg (not_lt.mpr (HeavenlyStem.stemIndex_nonneg year))]
      exact List.get?_eq_get
        (show (HeavenlyStem.stemIndex year).toNat < HeavenlyStem.list.length from
          HeavenlyStem.stemIndex_toNat_lt year)
    · unfold jsGet EarthlyBranch.fromYear
      rw [if_neg (not_lt.mpr (EarthlyBranch.branchIndex_nonneg year))]
      exact List.get?_eq_get
        (show (EarthlyBranch.branchIndex year).toNat < EarthlyBranch.list.length from
          EarthlyBranch.branchIndex_toNat_lt year)
  · exact ⟨rfl, rfl, rfl, rfl⟩

/-- C10: the flow-year profile constructed inside `calculateYearAhi` from
the Great Cold instant of the target year always has its movement-year
equal to the target year (the instant is never classified as before its
own Great Cold), so the stem and branch used are those of the target
year. -/
theorem flowYear_profile_is_targetYear (dahan : Int → JieqiInstant)
    (targetYear : Int) (h : (dahan targetYear).year = targetYear) :
    mkWuYunLiuQi dahan (dahan targetYear) =
      { wuyunYear := targetYear
        stem := HeavenlyStem.fromYear targetYear
        branch := EarthlyBranch.fromYear targetYear } :=
  mkWuYunLiuQi_dahan dahan targetYear h

theorem flowYear_profile_is_targetYear_witness :
    mkWuYunLiuQi (fun y => ⟨y, 0⟩) ((fun y => (⟨y, 0⟩ : JieqiInstant)) 2024) =
      { wuyunYear := 2024
        stem := HeavenlyStem.fromYear 2024
        branch := EarthlyBranch.fromYear 2024 } :=
  flowYear_profile_is_targetYear (fun y => ⟨y, 0⟩) 2024 rfl

/-- C3: under the constructor's movement-year rule, a date is assigned
movement-year Y exactly when it falls on or after the Great Cold instant
of year Y and before the Great Cold instant of year Y + 1, provided every
Great Cold instant falls inside its own civil year; in particular a date
exactly at a Great Cold instant resolves to the new movement-year, and a
date earlier in its civil year than that year's Great Cold resolves to the
prior movement-year. -/
theorem wuyunYear_interval_rule (dahan : Int → JieqiInstant)
    (yearStart : Int → Int)
    (hwf : ∀ Y : Int, yearStart Y ≤ (dahan Y).time ∧ (dahan Y).time < yearStart (Y + 1))
    (d : JieqiInstant)
    (hd : yearStart d.year ≤ d.time ∧ d.time < yearStart (d.year + 1))
    (Y : Int) :
    (wuyunYearOf dahan d = Y ↔
        (dahan Y).time ≤ d.time ∧ d.time < (dahan (Y + 1)).time) ∧
      (d.time = (dahan d.year).time → wuyunYearOf dahan d = d.year) ∧
      (d.time < (dahan d.year).time → wuyunYearOf dahan d = d.year - 1) := by
  have sm : StrictMono (fun n : Int => (dahan n).time) :=
    strictMono_int_of_lt_succ (fun n => lt_of_lt_of_le (hwf n).2 (hwf (n + 1)).1)
  have hres : (dahan (wuyunYearOf dahan d)).time ≤ d.time ∧
      d.time < (dahan (wuyunYearOf dahan d + 1)).time := by
    unfold wuyunYearOf
    by_cases hc : d.time < (dahan d.year).time
    · rw [if_pos hc]
      have e : d.year - 1 + 1 = d.year := by ring
      rw [e]
      have h1 := (hwf (d.year - 1)).2
      rw [e] at h1
      exact ⟨le_of_lt (lt_of_lt_of_le h1 hd.1), hc⟩
    · rw [if_neg hc]
      exact ⟨not_lt.mp hc, lt_of_lt_of_le hd.2 (hwf (d.year + 1)).1⟩
  refine ⟨⟨?_, ?_⟩, ?_, ?_⟩
  · rintro rfl
    exact hres
  · intro hY
    rcases lt_trichotomy (wuyunYearOf dahan d) Y with hlt | heq | hgt
    · exfalso
      have h1 : wuyunYearOf dahan d + 1 ≤ Y := by omega
      have h2 : (dahan (wuyunYearOf dahan d + 1)).time ≤ (dahan Y).time :=
        sm.monotone h1
      omega
    · exact heq
    · exfalso
      have h1 : Y + 1 ≤ wuyunYearOf dahan d := by omega
      have h2 : (dahan (Y + 1)).time ≤ (dahan (wuyunYearOf dahan d)).time :=
        sm.monotone h1
      omega
  · intro heq
    unfold wuyunYearOf
    rw [if_neg (by omega)]
  · intro hlt
    unfold wuyunYearOf
    rw [if_pos hlt]

/-- A concrete locator for the C3 witness: Great Cold of year Y at instant
400·Y + 20 inside a 400-tick civil year starting at 400·Y. -/
def dahanW : Int → JieqiInstant := fun y => ⟨y, 400 * y + 20⟩

/-- Start instant of civil year Y for the C3 witness. -/
def yearStartW : Int → Int := fun y => 400 * y

theorem wuyunYear_interval_rule_witness :
    (wuyunYearOf dahanW ⟨5, 400 * 5 + 20⟩ = 5 ↔
        (dahanW 5).time ≤ (⟨5, 400 * 5 + 20⟩ : JieqiInstant).time ∧
          (⟨5, 400 * 5 + 20⟩ : JieqiInstant).time < (dahanW (5 + 1)).time) ∧
      ((⟨5, 400 * 5 + 20⟩ : JieqiInstant).time =
          (dahanW (⟨5, 400 * 5 + 20⟩ : JieqiInstant).year).time →
        wuyunYearOf dahanW ⟨5, 400 * 5 + 20⟩ =
          (⟨5, 400 * 5 + 20⟩ : JieqiInstant).year) ∧
      ((⟨5, 400 * 5 + 20⟩ : JieqiInstant).time <
          (dahanW (⟨5, 400 * 5 + 20⟩ : JieqiInstant).year).time →
        wuyunYearOf dahanW ⟨5, 400 * 5 + 20⟩ =
          (⟨5, 400 * 5 + 20⟩ : JieqiInstant).year - 1) :=
  wuyunYear_interval_rule dahanW yearStartW
    (fun Y => ⟨by
        show 400 * Y ≤ 400 * Y + 20
        omega,
      by
        show 400 * Y + 20 < 400 * (Y + 1)
        omega⟩)
    ⟨5, 400 * 5 + 20⟩
    ⟨by
        show 400 * 5 ≤ 400 * 5 + 20
        omega,
      by
        show 400 * 5 + 20 < 400 * (5 + 1)
        omega⟩
    5

/-- C8: for every (year, term) input and every behaviour of the backing
calendar authority, the higher-precision locator either returns an instant
whose civil year equals the requested year, or fails with an error naming
exactly the failing year and term; it never silently returns an instant
from a different year. -/
theorem getExactJieqi_year_exact (table : String → Int → Int → Option JieqiInstant)
    (year : Int) (term : String) :
    (∀ j : JieqiInstant, getExactJieqi table year term = Except.ok j → j.year = year) ∧
      (∀ e : Int × String, getExactJieqi table year term = Except.error e →
        e = (year, term)) := by
  constructor
  · intro j hj
    unfold getExactJieqi at hj
    rcases h1 : jieqiFirstPass table year term with _ | j1
    · rw [h1] at hj
      dsimp only at hj
      rcases h2 : jieqiFallback table year term with _ | j2
      · rw [h2] at hj
        cases hj
      · rw [h2] at hj
        cases hj
        exact jieqiFallback_year h2
    · rw [h1] at hj
      cases hj
      exact jieqiFirstPass_year h1
  · intro e he
    unfold getExactJieqi at he
    rcases h1 : jieqiFirstPass table year term with _ | j1
    · rw [h1] at he
      dsimp only at he
      rcases h2 : jieqiFallback table year term with _ | j2
      · rw [h2] at he
        cases he
        rfl
      · rw [h2] at he
        cases he
    · rw [h1] at he
      cases he

/-- A concrete calendar authority for the C8 witness: every probe reports
the requested term at the probed civil year. -/
def jieqiTableW : String → Int → Int → Option JieqiInstant :=
  fun _ y _ => some ⟨y, 0⟩

theorem getExactJieqi_year_exact_witness :
    (⟨2024, 0⟩ : JieqiInstant).year = 2024 :=
  (getExactJieqi_year_exact jieqiTableW 2024 "大寒").1 ⟨2024, 0⟩ rfl

/-- C2: for every target year (with the Great Cold instant reported in its
own civil year), the collision score equals
0.30·(0.90·movementTotal + 0.10·movementStepAvg) +
0.70·(0.25·qiPart1 + 0.75·qiPart2), where movementStepAvg is the mean of
the five per-step guest-movement scores and qiPart2 is the strict
first-match priority chain with no double counting. -/
theorem calculateYearAhi_weighted_formula (dahan : Int → JieqiInstant)
    (natal : NatalProfile) (Y : Int) (h : (dahan Y).year = Y) :
    calculateYearAhi dahan natal Y =
      0.30 * (0.90 * (suiYunPts natal (HeavenlyStem.fromYear Y) : ℚ) +
        0.10 * ((((getGuestFortunes (HeavenlyStem.fromYear Y)).map
            (fun f => stepScore natal f.1)).sum : ℚ) / 5)) +
      0.70 * (0.25 * (sqPts1 natal (climaticEffectT (EarthlyBranch.fromYear Y)).1
            (climaticEffectT (EarthlyBranch.fromYear Y)).2 : ℚ) +
        0.75 * (sqPts2Chain natal.natalSuiYun
            (climaticEffectT (EarthlyBranch.fromYear Y)).1.element
            (EarthlyBranch.fromYear Y).element : ℚ)) := by
  simp only [calculateYearAhi]
  rw [mkWuYunLiuQi_dahan dahan Y h]
  simp only [calculateYearAhiCore, avgStepPts, stepPtsSum, List.map_map,
    Function.comp_def]
  rw [sqPts2_eq_chain]
  ring

/-- A concrete locator for witness instantiations: the Great Cold instant
of every year is reported in that year. -/
def dahanW2 : Int → JieqiInstant := fun y => ⟨y, 0⟩

/-- A concrete natal profile for witness instantiations. -/
def natalW : NatalProfile :=
  mkNatalProfile HeavenlyStem.jia Element.wood QiType.weakYinWood QiType.mildYinFire

theorem calculateYearAhi_weighted_formula_witness :
    calculateYearAhi dahanW2 natalW 2024 =
      0.30 * (0.90 * (suiYunPts natalW (HeavenlyStem.fromYear 2024) : ℚ) +
        0.10 * ((((getGuestFortunes (HeavenlyStem.fromYear 2024)).map
            (fun f => stepScore natalW f.1)).sum : ℚ) / 5)) +
      0.70 * (0.25 * (sqPts1 natalW (climaticEffectT (EarthlyBranch.fromYear 2024)).1
            (climaticEffectT (EarthlyBranch.fromYear 2024)).2 : ℚ) +
        0.75 * (sqPts2Chain natalW.natalSuiYun
            (climaticEffectT (EarthlyBranch.fromYear 2024)).1.element
            (EarthlyBranch.fromYear 2024).element : ℚ)) :=
  calculateYearAhi_weighted_formula dahanW2 natalW 2024 rfl

/-- C1: for every birth input, the emitted close of the point at index i
(age i+1) is the two-decimal rounding of
clamp(0.6·currentHealth + 0.4·baseScore + impact + drift, 0, 100), where
currentHealth is the carried close of the previous age (the natal base
score for age 1) and impact is the collision score of calendar year
birthYear + age − 1; the drift takes the claimed value on each age band,
and every emitted close lies within [0, 100]. -/
theorem kline_close_clamped (dahan : Int → JieqiInstant) (natal : NatalProfile)
    (birthYear : Int) (i : Nat) (hi : i < 60) :
    ((klineData dahan natal birthYear).getD i ⟨0, 0, 0⟩).close =
        round2 (clamp (klineClose dahan natal birthYear i * 0.6 +
          (baseScore natal : ℚ) * 0.4 +
          calculateYearAhi dahan natal (birthYear + ((i : Int) + 1) - 1) +
          lifecycleDrift (i + 1))) ∧
      0 ≤ ((klineData dahan natal birthYear).getD i ⟨0, 0, 0⟩).close ∧
      ((klineData dahan natal birthYear).getD i ⟨0, 0, 0⟩).close ≤ 100 ∧
      (1 ≤ i + 1 ∧ i + 1 ≤ 20 → lifecycleDrift (i + 1) = 0.8) ∧
      (21 ≤ i + 1 ∧ i + 1 ≤ 40 → lifecycleDrift (i + 1) = 0.0) ∧
      (41 ≤ i + 1 ∧ i + 1 ≤ 50 → lifecycleDrift (i + 1) = -0.8) ∧
      (51 ≤ i + 1 ∧ i + 1 ≤ 60 → lifecycleDrift (i + 1) = -1.5) := by
  rw [klineData_getD dahan natal birthYear hi]
  refine ⟨rfl, ?_, ?_, ?_, ?_, ?_, ?_⟩
  · exact round2_nonneg (clamp_nonneg _)
  · exact round2_le_100 (clamp_le_100 _)
  · intro hband
    unfold lifecycleDrift
    rw [if_pos hband]
  · intro hband
    unfold lifecycleDrift
    rw [if_neg (by omega), if_pos hband]
  · intro hband
    unfold lifecycleDrift
    rw [if_neg (by omega), if_neg (by omega), if_pos hband]
  · intro hband
    unfold lifecycleDrift
    rw [if_neg (by omega), if_neg (by omega), if_neg (by omega)]

theorem kline_close_clamped_witness :
    ((klineData dahanW2 natalW 2024).getD 0 ⟨0, 0, 0⟩).close =
        round2 (clamp (klineClose dahanW2 natalW 2024 0 * 0.6 +
          (baseScore natalW : ℚ) * 0.4 +
          calculateYearAhi dahanW2 natalW (2024 + (((0 : Nat) : Int) + 1) - 1) +
          lifecycleDrift (0 + 1))) ∧
      0 ≤ ((klineData dahanW2 natalW 2024).getD 0 ⟨0, 0, 0⟩).close ∧
      ((klineData dahanW2 natalW 2024).getD 0 ⟨0, 0, 0⟩).close ≤ 100 ∧
      (1 ≤ 0 + 1 ∧ 0 + 1 ≤ 20 → lifecycleDrift (0 + 1) = 0.8) ∧
      (21 ≤ 0 + 1 ∧ 0 + 1 ≤ 40 → lifecycleDrift (0 + 1) = 0.0) ∧
      (41 ≤ 0 + 1 ∧ 0 + 1 ≤ 50 → lifecycleDrift (0 + 1) = -0.8) ∧
      (51 ≤ 0 + 1 ∧ 0 + 1 ≤ 60 → lifecycleDrift (0 + 1) = -1.5) :=
  kline_close_clamped dahanW2 natalW 2024 0 (by norm_num)

/-- C6: in the emitted series the two-decimal-rounded open of the point at
index i equals the rounded close of the point at index i − 1 for
i = 1..59 (ages 2..60), and the rounded open of the first point equals the
natal base score exactly. -/
theorem kline_open_eq_prev_close (dahan : Int → JieqiInstant) (natal : NatalProfile)
    (birthYear : Int) (i : Nat) (h1 : 1 ≤ i) (h2 : i < 60) :
    ((klineData dahan natal birthYear).getD i ⟨0, 0, 0⟩).open_ =
        ((klineData dahan natal birthYear).getD (i - 1) ⟨0, 0, 0⟩).close ∧
      ((klineData dahan natal birthYear).getD 0 ⟨0, 0, 0⟩).open_ =
        (baseScore natal : ℚ) := by
  rw [klineData_getD dahan natal birthYear h2,
    klineData_getD dahan natal birthYear (show i - 1 < 60 by omega),
    klineData_getD dahan natal birthYear (show 0 < 60 by norm_num)]
  constructor
  · show round2 (klineClose dahan natal birthYear i) =
      round2 (klineClose dahan natal birthYear (i - 1 + 1))
    rw [Nat.sub_add_cancel h1]
  · exact round2_intCast (baseScore natal)

theorem kline_open_eq_prev_close_witness :
    ((klineData dahanW2 natalW 2024).getD 2 ⟨0, 0, 0⟩).open_ =
        ((klineData dahanW2 natalW 2024).getD (2 - 1) ⟨0, 0, 0⟩).close ∧
      ((klineData dahanW2 natalW 2024).getD 0 ⟨0, 0, 0⟩).open_ =
        (baseScore natalW : ℚ) :=
  kline_open_eq_prev_close dahanW2 natalW 2024 2 (by norm_num) (by norm_num)

end Ahi
